import Mathlib

/- Verification development for the hotspot cellular diagnostics scraper
(`hotspot_metrics/scraper/scraper.py`).  The Python source is shallowly
embedded below: JSON values become the inductive `JVal` (Python floats are
modelled as exact rationals), the regex scan for an embedded signed decimal
is modelled character-by-character over ASCII text, and the stateful
controller loop becomes an explicit step function on a controller-state
record.  Only ASCII digits and whitespace are modelled for string inputs. -/

set_option autoImplicit false

namespace HotspotMetrics

/-- JSON values as delivered to `parse_model_payload`.  JSON `null` arrives in
Python as `None`; booleans are Python `bool` (a subtype of `int`). -/
inductive JVal where
  | jnull : JVal
  | jbool : Bool → JVal
  | jnum : ℚ → JVal
  | jstr : String → JVal
  | jarr : List JVal → JVal
  | jobj : List (String × JVal) → JVal

abbrev JObj := List (String × JVal)

/-- Python `dict.get(key)`: first binding of the key, `None` when missing. -/
def jget (o : JObj) (k : String) : Option JVal :=
  (o.find? (fun p => p.1 == k)).map Prod.snd

/-- Python whitespace characters stripped by `str.strip()` (ASCII subset). -/
def isPyWhitespace (c : Char) : Bool :=
  c = ' ' || c = '\t' || c = '\n' || c = '\r' || c = '\x0b' || c = '\x0c'

/-- Model of Python `str.strip()` on a character list. -/
def pyStrip (s : List Char) : List Char :=
  ((s.dropWhile isPyWhitespace).reverse.dropWhile isPyWhitespace).reverse

/-- Greedy run of leading ASCII digits, with the remainder of the input. -/
def leadDigits : List Char → List Char × List Char
  | [] => ([], [])
  | c :: cs =>
    if c.isDigit then
      let p := leadDigits cs
      (c :: p.1, p.2)
    else ([], c :: cs)

/-- Match the body of the regex at the current position:
one or more digits, optionally followed by a dot and one or more digits
(greedy, as in the pattern `\d+(?:\.\d+)?`). -/
def matchIntFrac (cs : List Char) : Option (List Char) :=
  match leadDigits cs with
  | ([], _) => Option.none
  | (d :: ds, rest) =>
    match rest with
    | '.' :: rest2 =>
      (match leadDigits rest2 with
       | ([], _) => some (d :: ds)
       | (f :: fs, _) => some ((d :: ds) ++ '.' :: f :: fs))
    | _ => some (d :: ds)

/-- Try to match the full pattern (optional minus sign, then digits) at the
current position.  A minus sign not followed by a digit fails, matching the
backtracking behaviour of the regex engine. -/
def matchNumAt (cs : List Char) : Option (List Char) :=
  match cs with
  | '-' :: rest => (matchIntFrac rest).map (fun t => '-' :: t)
  | _ => matchIntFrac cs

/-- Model of `re.search` for the pattern of an embedded signed decimal:
the leftmost position at which the pattern matches wins. -/
def scanNumber : List Char → Option (List Char)
  | [] => Option.none
  | c :: cs =>
    match matchNumAt (c :: cs) with
    | some t => some t
    | Option.none => scanNumber cs

/-- Numeric value of a digit run. -/
def digitsVal (ds : List Char) : ℕ :=
  ds.foldl (fun a c => a * 10 + (c.toNat - 48)) 0

/-- Value of an unsigned matched token (model of Python `float()` on the
matched text; the decimal value is represented exactly as a rational). -/
def tokenToRatPos (t : List Char) : ℚ :=
  let ip := t.takeWhile Char.isDigit
  match t.dropWhile Char.isDigit with
  | '.' :: fs => (digitsVal ip : ℚ) + (digitsVal fs : ℚ) / (10 : ℚ) ^ fs.length
  | _ => (digitsVal ip : ℚ)

/-- Value of a matched token, sign included. -/
def tokenToRat : List Char → ℚ
  | '-' :: t => -(tokenToRatPos t)
  | t => tokenToRatPos t

/-- Sentinel/range classification of an extracted number: the Netgear sentinel
codes and any magnitude beyond 300 report "no reading". -/
def classifyNum (num : ℚ) : Option ℚ × Bool × Bool :=
  if num = -32768 ∨ num = -3276 ∨ num = 32767 ∨ num = 3276 then
    (Option.none, true, false)
  else if num < -300 ∨ 300 < num then
    (Option.none, true, false)
  else
    (some num, false, false)

/-- Embedding of `_extract_metric_value`: parse a numeric metric value from a
raw model-payload value, returning `(value, sentinel_seen, malformed_seen)`.
The `Option` wrapper distinguishes a missing key from a present value; a
present JSON `null` is Python `None` as well.  Python treats `bool` as an
`int`, so booleans take the numeric path. -/
def _extract_metric_value (raw : Option JVal) : Option ℚ × Bool × Bool :=
  match raw with
  | Option.none => (Option.none, false, false)
  | some JVal.jnull => (Option.none, false, false)
  | some (JVal.jnum x) => classifyNum x
  | some (JVal.jbool b) => classifyNum (if b then 1 else 0)
  | some (JVal.jstr s) =>
    let text := pyStrip s.data
    if text = [] then (Option.none, false, false)
    else
      match scanNumber text with
      | Option.none => (Option.none, false, true)
      | some tok => classifyNum (tokenToRat tok)
  | some (JVal.jobj _) => (Option.none, false, true)
  | some (JVal.jarr _) => (Option.none, false, true)

/-- Loop body of `_pick_metric`: the accumulators carry the OR-reduced flags
seen so far, and the function returns as soon as a candidate yields a value. -/
def pickGo : List (Option JVal) → Bool → Bool → Option ℚ × Bool × Bool
  | [], s, m => (Option.none, s, m)
  | r :: rest, s, m =>
    match _extract_metric_value r with
    | (some x, sv, mv) => (some x, s || sv, m || mv)
    | (Option.none, sv, mv) => pickGo rest (s || sv) (m || mv)

/-- Embedding of `_pick_metric` over a candidate group. -/
def _pick_metric (candidates : List (Option JVal)) : Option ℚ × Bool × Bool :=
  pickGo candidates false false

/-- Embedding of `clamp`. -/
def clamp (v lo hi : ℚ) : ℚ := max lo (min hi v)

/-- Python `round` with no digits argument: round half to even, as applied to
the (exactly represented) quality ratio. -/
def pyRound (q : ℚ) : ℤ :=
  if q - (⌊q⌋ : ℚ) < 1 / 2 then ⌊q⌋
  else if 1 / 2 < q - (⌊q⌋ : ℚ) then ⌊q⌋ + 1
  else if ⌊q⌋ % 2 = 0 then ⌊q⌋ else ⌊q⌋ + 1

/-- Normalised SNR component, `clamp((snr + 5) / 25, 0, 1)`. -/
def snrPart (v : ℚ) : ℚ := clamp ((v + 5) / 25) 0 1

/-- Normalised RSRQ component, `clamp((rsrq + 20) / 17, 0, 1)`. -/
def rsrqPart (v : ℚ) : ℚ := clamp ((v + 20) / 17) 0 1

/-- Normalised RSRP component, `clamp((rsrp + 120) / 40, 0, 1)`. -/
def rsrpPart (v : ℚ) : ℚ := clamp ((v + 120) / 40) 0 1

/-- Embedding of `quality_score`: weighted composite quality 0-100 over the
present components (weights SNR 0.50, RSRQ 0.30, RSRP 0.20), `none` when no
component is present. -/
def quality_score (snr rsrq rsrp : Option ℚ) : Option ℤ :=
  let parts : List (ℚ × ℚ) :=
    (match snr with | some v => [(snrPart v, 1 / 2)] | Option.none => []) ++
    (match rsrq with | some v => [(rsrqPart v, 3 / 10)] | Option.none => []) ++
    (match rsrp with | some v => [(rsrpPart v, 1 / 5)] | Option.none => [])
  match parts with
  | [] => Option.none
  | _ =>
    let wsum := (parts.map Prod.snd).sum
    let vsum := (parts.map (fun p => p.1 * p.2)).sum
    some (pyRound (vsum / wsum * 100))

/-- Canonical sample produced by the parsers (`data` dict in the source). -/
structure Diagnostics where
  lte_rsrp : Option ℚ
  lte_rsrq : Option ℚ
  lte_snr : Option ℚ
  nr_rsrp : Option ℚ
  nr_rsrq : Option ℚ
  nr_snr : Option ℚ
  band : String
  service_type : String
deriving DecidableEq

/-- Embedding of `empty_diagnostics`. -/
def empty_diagnostics : Diagnostics :=
  { lte_rsrp := Option.none, lte_rsrq := Option.none, lte_snr := Option.none,
    nr_rsrp := Option.none, nr_rsrq := Option.none, nr_snr := Option.none,
    band := "", service_type := "" }

/-- Count of the six numeric fields holding a value
(`sum(1 for key in NUMERIC_FIELDS if data[key] is not None)`). -/
def parsedNumericCount (d : Diagnostics) : ℕ :=
  (if d.lte_rsrp.isSome then 1 else 0) + (if d.lte_rsrq.isSome then 1 else 0) +
  (if d.lte_snr.isSome then 1 else 0) + (if d.nr_rsrp.isSome then 1 else 0) +
  (if d.nr_rsrq.isSome then 1 else 0) + (if d.nr_snr.isSome then 1 else 0)

/-- The closed set of source states (`SOURCE_STATE_CODES` keys). -/
inductive SrcState where
  | ok | no_signal | source_unavailable | parse_warning | scrape_error | startup_error
deriving DecidableEq

/-- Embedding of `SOURCE_STATE_CODES`. -/
def stateCode : SrcState → ℕ
  | .ok => 0
  | .no_signal => 1
  | .source_unavailable => 2
  | .parse_warning => 3
  | .scrape_error => 4
  | .startup_error => 5

/-- The `signalStrength` section of the `wwan` object: any non-mapping value
is replaced by the empty mapping. -/
def signalOf (wf : JObj) : JObj :=
  match jget wf "signalStrength" with
  | some (JVal.jobj sf) => sf
  | _ => []

/-- First element of the `diagInfo` list when it is a list whose first
element is a mapping, the empty mapping otherwise. -/
def diag0Of (wf : JObj) : JObj :=
  match jget wf "diagInfo" with
  | some (JVal.jarr (x :: _)) =>
    (match x with
     | JVal.jobj df => df
     | _ => [])
  | _ => []

/-- Candidate group for `lte_rsrp`. -/
def lteRsrpCands (wf : JObj) : List (Option JVal) :=
  [jget (diag0Of wf) "ltesigRsrp", jget (signalOf wf) "rsrp", jget (signalOf wf) "lteRsrp"]

/-- Candidate group for `lte_rsrq`. -/
def lteRsrqCands (wf : JObj) : List (Option JVal) :=
  [jget (diag0Of wf) "ltesigRsrq", jget (signalOf wf) "rsrq", jget (signalOf wf) "lteRsrq"]

/-- Candidate group for `lte_snr`. -/
def lteSnrCands (wf : JObj) : List (Option JVal) :=
  [jget (diag0Of wf) "ltesigSnr", jget (signalOf wf) "snr", jget (signalOf wf) "lteSnr"]

/-- Candidate group for `nr_rsrp`. -/
def nrRsrpCands (wf : JObj) : List (Option JVal) :=
  [jget (diag0Of wf) "nr5gsigRsrp", jget (signalOf wf) "nr5gRsrp", jget (signalOf wf) "nr5gRSRP"]

/-- Candidate group for `nr_rsrq`. -/
def nrRsrqCands (wf : JObj) : List (Option JVal) :=
  [jget (diag0Of wf) "nr5gsigRsrq", jget (signalOf wf) "nr5gRsrq", jget (signalOf wf) "nr5gRSRQ"]

/-- Candidate group for `nr_snr`. -/
def nrSnrCands (wf : JObj) : List (Option JVal) :=
  [jget (diag0Of wf) "nr5gsigSnr", jget (signalOf wf) "nr5gSnr", jget (signalOf wf) "nr5gSNR"]

/-- All eighteen candidate fields of the six metric groups, in source order. -/
def candidateRaws (wf : JObj) : List (Option JVal) :=
  lteRsrpCands wf ++ lteRsrqCands wf ++ lteSnrCands wf ++
  nrRsrpCands wf ++ nrRsrqCands wf ++ nrSnrCands wf

/-- Python `str()` rendering of a JSON value, used for the band and
service-type fields.  String content of non-string values beyond
non-emptiness is not load-bearing in the parser (only truthiness after
stripping is consulted); `str()` of a number, `None`, a boolean, a list or a
dict is never empty nor whitespace-only. -/
def pyStrOf : JVal → String
  | JVal.jstr s => s
  | JVal.jnull => "None"
  | JVal.jbool true => "True"
  | JVal.jbool false => "False"
  | JVal.jnum q => toString q
  | JVal.jarr _ => "[...]"
  | JVal.jobj _ => "{...}"

/-- Model of `str(obj.get(key, "")).strip()`. -/
def strFieldOf (o : JObj) (k : String) : String :=
  match jget o k with
  | Option.none => ""
  | some v => { data := pyStrip (pyStrOf v).data }

/-- Band string: `wwanadv.curBand` when `wwanadv` is a mapping and yields a
non-empty string, else `wwan.curBand`. -/
def bandOf (mf wf : JObj) : String :=
  let b1 :=
    match jget mf "wwanadv" with
    | some (JVal.jobj af) => strFieldOf af "curBand"
    | _ => ""
  if b1 = "" then strFieldOf wf "curBand" else b1

/-- Service-type string: `wwan.currentPSserviceType` with fallback to
`wwan.currentNWserviceType`. -/
def serviceTypeOf (wf : JObj) : String :=
  let s1 := strFieldOf wf "currentPSserviceType"
  if s1 = "" then strFieldOf wf "currentNWserviceType" else s1

/-- Body of `parse_model_payload` once the `wwan` mapping has been found. -/
def parseWwan (mf wf : JObj) : Diagnostics × SrcState × String :=
  let p1 := _pick_metric (lteRsrpCands wf)
  let p2 := _pick_metric (lteRsrqCands wf)
  let p3 := _pick_metric (lteSnrCands wf)
  let p4 := _pick_metric (nrRsrpCands wf)
  let p5 := _pick_metric (nrRsrqCands wf)
  let p6 := _pick_metric (nrSnrCands wf)
  let sentinel_seen := p1.2.1 || p2.2.1 || p3.2.1 || p4.2.1 || p5.2.1 || p6.2.1
  let malformed_seen := p1.2.2 || p2.2.2 || p3.2.2 || p4.2.2 || p5.2.2 || p6.2.2
  let data : Diagnostics :=
    { lte_rsrp := p1.1, lte_rsrq := p2.1, lte_snr := p3.1,
      nr_rsrp := p4.1, nr_rsrq := p5.1, nr_snr := p6.1,
      band := bandOf mf wf, service_type := serviceTypeOf wf }
  if 0 < parsedNumericCount data ∨ data.band ≠ "" ∨ data.service_type ≠ "" then
    (data, SrcState.ok, "model stream updated")
  else if sentinel_seen && !malformed_seen then
    (data, SrcState.no_signal, "model stream reports no signal")
  else if malformed_seen then
    (data, SrcState.parse_warning, "model stream values not parseable")
  else if !(signalOf wf).isEmpty || !(diag0Of wf).isEmpty then
    (data, SrcState.source_unavailable, "model stream has no diagnostics values")
  else
    (data, SrcState.source_unavailable, "model payload missing diagnostics sections")

/-- Embedding of `parse_model_payload`. -/
def parse_model_payload (model : JVal) : Diagnostics × SrcState × String :=
  match model with
  | JVal.jobj mf =>
    (match jget mf "wwan" with
     | some (JVal.jobj wf) => parseWwan mf wf
     | _ => (empty_diagnostics, SrcState.source_unavailable, "model payload missing wwan section"))
  | _ => (empty_diagnostics, SrcState.source_unavailable, "model payload invalid")

/-- Value held by a Prometheus gauge after a `set` call. -/
inductive GaugeVal where
  | nan : GaugeVal
  | val : ℚ → GaugeVal
deriving DecidableEq

/-- The `_set` helper of `update_gauges`: absent readings become NaN. -/
def _set (v : Option ℚ) : GaugeVal :=
  match v with
  | some q => GaugeVal.val q
  | Option.none => GaugeVal.nan

/-- The mutable registry of Prometheus series touched by `update_gauges` and
`set_source_state` (time-independent series only; counters and the heartbeat
gauge are owned by the main loop). -/
structure Registry where
  lte_rsrp : GaugeVal
  lte_rsrq : GaugeVal
  lte_snr : GaugeVal
  nr_rsrp : GaugeVal
  nr_rsrq : GaugeVal
  nr_snr : GaugeVal
  lte_quality : GaugeVal
  nr_quality : GaugeVal
  service_type : String
  band : String
  last_scrape_unixtime : GaugeVal
  source_state_code : GaugeVal
  source_empty_streak : GaugeVal
  source_status_state : SrcState
  source_status_message : String
  scrape_success : GaugeVal
deriving DecidableEq

/-- Embedding of `set_source_state`. -/
def set_source_state (reg : Registry) (state : SrcState) (message : String)
    (empty_streak : ℕ) : Registry :=
  { reg with
    source_state_code := GaugeVal.val (stateCode state : ℚ),
    source_empty_streak := GaugeVal.val (empty_streak : ℚ),
    source_status_state := state,
    source_status_message := message }

/-- The SSE-ready payload returned by `update_gauges`. -/
structure SsePayload where
  lte_quality : ℤ
  nr_quality : ℤ
  lte_rsrp : Option ℚ
  lte_rsrq : Option ℚ
  lte_snr : Option ℚ
  nr_rsrp : Option ℚ
  nr_rsrq : Option ℚ
  nr_snr : Option ℚ
  band : String
  service_type : String
  source_state : SrcState
  source_message : String
  empty_streak : ℕ
  heartbeat_unixtime : ℚ
  scrape_unixtime : ℚ
  scrape_success : ℕ
  timestamp : ℚ
deriving DecidableEq

/-- Embedding of `update_gauges`: pushes parsed data into the registry and
returns the SSE payload.  `time.time()` is passed in as `now`. -/
def update_gauges (reg : Registry) (data : Diagnostics) (source_state : SrcState)
    (source_message : String) (empty_streak : ℕ) (heartbeat_unixtime now : ℚ) :
    Registry × SsePayload :=
  let lte_q := quality_score data.lte_snr data.lte_rsrq data.lte_rsrp
  let nr_q := quality_score data.nr_snr data.nr_rsrq data.nr_rsrp
  let reg1 :=
    { reg with
      lte_rsrp := _set data.lte_rsrp, lte_rsrq := _set data.lte_rsrq,
      lte_snr := _set data.lte_snr, nr_rsrp := _set data.nr_rsrp,
      nr_rsrq := _set data.nr_rsrq, nr_snr := _set data.nr_snr,
      lte_quality := GaugeVal.val ((lte_q.getD 0 : ℤ) : ℚ),
      nr_quality := GaugeVal.val ((nr_q.getD 0 : ℤ) : ℚ) }
  let reg2 := if data.service_type ≠ "" then { reg1 with service_type := data.service_type } else reg1
  let reg3 := if data.band ≠ "" then { reg2 with band := data.band } else reg2
  let reg4 := { reg3 with last_scrape_unixtime := GaugeVal.val now }
  let reg5 := set_source_state reg4 source_state source_message empty_streak
  let success : ℕ := if source_state = SrcState.ok ∨ source_state = SrcState.no_signal then 1 else 0
  let reg6 := { reg5 with scrape_success := GaugeVal.val (success : ℚ) }
  (reg6,
   { lte_quality := lte_q.getD 0, nr_quality := nr_q.getD 0,
     lte_rsrp := data.lte_rsrp, lte_rsrq := data.lte_rsrq, lte_snr := data.lte_snr,
     nr_rsrp := data.nr_rsrp, nr_rsrq := data.nr_rsrq, nr_snr := data.nr_snr,
     band := data.band, service_type := data.service_type,
     source_state := source_state, source_message := source_message,
     empty_streak := empty_streak, heartbeat_unixtime := heartbeat_unixtime,
     scrape_unixtime := now, scrape_success := success, timestamp := now })

/-- Eviction loop of `HotspotScraper._on_response`: remove the oldest queued
events while the queue holds four or more. -/
def dropWhileFull {α : Type} : List α → List α
  | [] => []
  | x :: xs => if 4 ≤ (x :: xs).length then dropWhileFull xs else x :: xs

/-- Queue effect of `HotspotScraper._on_response`: evict to below capacity,
then admit the newest event at the tail. -/
def onResponsePush {α : Type} (q : List α) (e : α) : List α :=
  dropWhileFull q ++ [e]

/-- Drain loop of `get_latest_model_event`: keep replacing the held event
with the next queued one until the queue is empty. -/
def drainLatest {α : Type} (e : α) : List α → α
  | [] => e
  | x :: xs => drainLatest x xs

/-- Embedding of `HotspotScraper.get_latest_model_event` on the queue state:
`none` when nothing is queued within the timeout, otherwise the freshest
queued event, leaving the queue empty. -/
def get_latest_model_event {α : Type} (q : List α) : Option α × List α :=
  match q with
  | [] => (Option.none, [])
  | e :: rest => (some (drainLatest e rest), [])

/-- Controller-owned state of the main loop (`run`): whether an upstream
scraper session exists, the failure streak, and the restart threshold. -/
structure ControllerState where
  hasScraper : Bool
  empty_streak : ℕ
  restart_threshold : ℕ
deriving DecidableEq

/-- Initial controller state of `run`. -/
def initController : ControllerState :=
  { hasScraper := false, empty_streak := 0, restart_threshold := 5 }

/-- States that grow the failure streak. -/
def isStreakState : SrcState → Bool
  | .source_unavailable | .parse_warning | .scrape_error | .startup_error => true
  | _ => false

/-- States eligible for the forced-restart branch. -/
def isRestartState : SrcState → Bool
  | .source_unavailable | .parse_warning | .scrape_error => true
  | _ => false

/-- One iteration of the `run` loop, restricted to the controller-owned
state.  `startupOk` is consulted only when no scraper session exists: a
failed startup publishes `startup_error` and doubles the threshold.  An
iteration with a session (or a fresh one) evaluates to source state `st`
(from the model-event path or the fallback scrape), updates the streak and
threshold, and tears the session down when the restart condition fires. -/
def controllerStep (s : ControllerState) (startupOk : Bool) (st : SrcState) :
    ControllerState :=
  if s.hasScraper = false ∧ startupOk = false then
    { hasScraper := false, empty_streak := s.empty_streak + 1,
      restart_threshold := min (s.restart_threshold * 2) 60 }
  else if isStreakState st then
    if isRestartState st ∧ s.restart_threshold ≤ s.empty_streak + 1 then
      { hasScraper := false, empty_streak := s.empty_streak + 1,
        restart_threshold := min (s.restart_threshold * 2) 60 }
    else
      { hasScraper := true, empty_streak := s.empty_streak + 1,
        restart_threshold := s.restart_threshold }
  else
    { hasScraper := true, empty_streak := 0, restart_threshold := 5 }

/-- A raw candidate value classified as a sentinel reading by the normalizer. -/
def isSentinelRaw (r : Option JVal) : Prop :=
  _extract_metric_value r = (Option.none, true, false)

instance (r : Option JVal) : Decidable (isSentinelRaw r) := by
  unfold isSentinelRaw; infer_instance

theorem classifyNum_sentinel {x : ℚ}
    (h : x = -32768 ∨ x = -3276 ∨ x = 32767 ∨ x = 3276 ∨ x < -300 ∨ 300 < x) :
    classifyNum x = (Option.none, true, false) := by
  unfold classifyNum
  split_ifs with h1 h2
  · rfl
  · rfl
  · exfalso
    rcases h with h | h | h | h | h | h
    · exact h1 (Or.inl h)
    · exact h1 (Or.inr (Or.inl h))
    · exact h1 (Or.inr (Or.inr (Or.inl h)))
    · exact h1 (Or.inr (Or.inr (Or.inr h)))
    · exact h2 (Or.inl h)
    · exact h2 (Or.inr h)

theorem scanNumber_nil : scanNumber [] = Option.none := rfl

theorem extract_jstr_eq_classify (s : String) (t : List Char)
    (hscan : scanNumber (pyStrip s.data) = some t) :
    _extract_metric_value (some (JVal.jstr s)) = classifyNum (tokenToRat t) := by
  have hne : pyStrip s.data ≠ [] := by
    intro h
    rw [h, scanNumber_nil] at hscan
    exact Option.noConfusion hscan
  simp only [_extract_metric_value]
  rw [if_neg hne, hscan]

/-- C5: a numeric input equal to one of the vendor sentinels `-32768`,
`-3276`, `32767`, `3276`, or of magnitude exceeding 300, normalizes to an
absent value with `sentinel_seen = true` and `malformed_seen = false`; the
same holds when such a number is the one scanned out of a string input. -/
theorem C5_sentinel_normalization :
    (∀ x : ℚ, (x = -32768 ∨ x = -3276 ∨ x = 32767 ∨ x = 3276 ∨ 300 < |x|) →
      _extract_metric_value (some (JVal.jnum x)) = (Option.none, true, false)) ∧
    (∀ (s : String) (t : List Char), scanNumber (pyStrip s.data) = some t →
      (tokenToRat t = -32768 ∨ tokenToRat t = -3276 ∨ tokenToRat t = 32767 ∨
        tokenToRat t = 3276 ∨ 300 < |tokenToRat t|) →
      _extract_metric_value (some (JVal.jstr s)) = (Option.none, true, false)) := by
  have habs : ∀ x : ℚ, 300 < |x| → x < -300 ∨ 300 < x := by
    intro x hx
    rcases lt_abs.mp hx with h | h
    · exact Or.inr h
    · exact Or.inl (by linarith)
  constructor
  · intro x hx
    show classifyNum x = (Option.none, true, false)
    apply classifyNum_sentinel
    rcases hx with h | h | h | h | h
    · exact Or.inl h
    · exact Or.inr (Or.inl h)
    · exact Or.inr (Or.inr (Or.inl h))
    · exact Or.inr (Or.inr (Or.inr (Or.inl h)))
    · rcases habs x h with h' | h'
      · exact Or.inr (Or.inr (Or.inr (Or.inr (Or.inl h'))))
      · exact Or.inr (Or.inr (Or.inr (Or.inr (Or.inr h'))))
  · intro s t hscan hv
    rw [extract_jstr_eq_classify s t hscan]
    apply classifyNum_sentinel
    rcases hv with h | h | h | h | h
    · exact Or.inl h
    · exact Or.inr (Or.inl h)
    · exact Or.inr (Or.inr (Or.inl h))
    · exact Or.inr (Or.inr (Or.inr (Or.inl h)))
    · rcases habs _ h with h' | h'
      · exact Or.inr (Or.inr (Or.inr (Or.inr (Or.inl h'))))
      · exact Or.inr (Or.inr (Or.inr (Or.inr (Or.inr h'))))

/-- C5 witness: the sentinel `-32768` as a number, and the out-of-range
number `9999` embedded in a string. -/
theorem C5_witness :
    _extract_metric_value (some (JVal.jnum (-32768))) = (Option.none, true, false) ∧
    _extract_metric_value (some (JVal.jstr "9999")) = (Option.none, true, false) :=
  ⟨C5_sentinel_normalization.1 (-32768) (by norm_num),
   C5_sentinel_normalization.2 "9999" ['9', '9', '9', '9'] (by decide) (by decide)⟩

/-- C6 counterexample: a whitespace-only string yields an absent value with
`malformed_seen = false` (and `sentinel_seen = false`), not
`malformed_seen = true` as the claim states for all non-numeric content. -/
theorem C6_counterexample :
    _extract_metric_value (some (JVal.jstr " ")) = (Option.none, false, false) := by
  decide

/-- C6 (amended): a string that is non-empty after stripping and from which
no embedded signed decimal can be scanned normalizes to an absent value with
`malformed_seen = true`; a whitespace-only (or empty) string instead
normalizes to an absent value with both flags false. -/
theorem C6_malformed_strings :
    (∀ s : String, pyStrip s.data ≠ [] → scanNumber (pyStrip s.data) = Option.none →
      _extract_metric_value (some (JVal.jstr s)) = (Option.none, false, true)) ∧
    (∀ s : String, pyStrip s.data = [] →
      _extract_metric_value (some (JVal.jstr s)) = (Option.none, false, false)) := by
  constructor
  · intro s hne hscan
    simp only [_extract_metric_value]
    rw [if_neg hne, hscan]
  · intro s hnil
    simp only [_extract_metric_value]
    rw [if_pos hnil]

/-- C6 witness: the string `"abc"` strips to non-empty non-numeric content
and is flagged malformed; the string `" "` strips to empty. -/
theorem C6_witness :
    _extract_metric_value (some (JVal.jstr "abc")) = (Option.none, false, true) ∧
    _extract_metric_value (some (JVal.jstr " ")) = (Option.none, false, false) :=
  ⟨C6_malformed_strings.1 "abc" (by decide) (by decide),
   C6_malformed_strings.2 " " (by decide)⟩

/-- C10: sentinel detection applies after numeric extraction from strings: a
string whose scanned embedded decimal equals a sentinel code normalizes to an
absent value with `sentinel_seen = true` and `malformed_seen = false`,
exactly as the corresponding numeric input does. -/
theorem C10_string_sentinel :
    ∀ (s : String) (t : List Char), scanNumber (pyStrip s.data) = some t →
      (tokenToRat t = -32768 ∨ tokenToRat t = -3276 ∨ tokenToRat t = 32767 ∨
        tokenToRat t = 3276) →
      _extract_metric_value (some (JVal.jstr s)) = (Option.none, true, false) ∧
      _extract_metric_value (some (JVal.jstr s)) =
        _extract_metric_value (some (JVal.jnum (tokenToRat t))) := by
  intro s t hscan hv
  have hcls : classifyNum (tokenToRat t) = (Option.none, true, false) := by
    apply classifyNum_sentinel
    rcases hv with h | h | h | h
    · exact Or.inl h
    · exact Or.inr (Or.inl h)
    · exact Or.inr (Or.inr (Or.inl h))
    · exact Or.inr (Or.inr (Or.inr (Or.inl h)))
  refine ⟨?_, ?_⟩
  · rw [extract_jstr_eq_classify s t hscan]
    exact hcls
  · rw [extract_jstr_eq_classify s t hscan]
    rfl

theorem pickGo_cons_none (r : Option JVal) (rest : List (Option JVal)) (s m : Bool)
    (h : (_extract_metric_value r).1 = Option.none) :
    pickGo (r :: rest) s m =
      pickGo rest (s || (_extract_metric_value r).2.1) (m || (_extract_metric_value r).2.2) := by
  rcases hE : _extract_metric_value r with ⟨v, sv, mv⟩
  rw [hE] at h
  simp only at h
  subst h
  simp [pickGo, hE]

theorem pickGo_cons_some (r : Option JVal) (rest : List (Option JVal)) (s m : Bool)
    (x : ℚ) (h : (_extract_metric_value r).1 = some x) :
    pickGo (r :: rest) s m =
      (some x, s || (_extract_metric_value r).2.1, m || (_extract_metric_value r).2.2) := by
  rcases hE : _extract_metric_value r with ⟨v, sv, mv⟩
  rw [hE] at h
  simp only at h
  subst h
  simp [pickGo, hE]

theorem pickGo_all_absent (l : List (Option JVal)) (s m : Bool)
    (h : ∀ r ∈ l, (_extract_metric_value r).1 = Option.none) :
    pickGo l s m = (Option.none,
      s || l.any (fun r => (_extract_metric_value r).2.1),
      m || l.any (fun r => (_extract_metric_value r).2.2)) := by
  induction l generalizing s m with
  | nil => simp [pickGo]
  | cons r rest ih =>
    rw [pickGo_cons_none r rest s m (h r (List.mem_cons_self r rest))]
    rw [ih (s || (_extract_metric_value r).2.1) (m || (_extract_metric_value r).2.2)
      (fun r' hr' => h r' (List.mem_cons_of_mem r hr'))]
    simp [List.any_cons, Bool.or_assoc]

theorem pickGo_winner (pre : List (Option JVal)) (r : Option JVal)
    (rest : List (Option JVal)) (s m : Bool) (x : ℚ)
    (hpre : ∀ p ∈ pre, (_extract_metric_value p).1 = Option.none)
    (hr : (_extract_metric_value r).1 = some x) :
    pickGo (pre ++ r :: rest) s m =
      (some x,
        s || (pre ++ [r]).any (fun c => (_extract_metric_value c).2.1),
        m || (pre ++ [r]).any (fun c => (_extract_metric_value c).2.2)) := by
  induction pre generalizing s m with
  | nil =>
    rw [List.nil_append, pickGo_cons_some r rest s m x hr]
    simp [List.any_cons]
  | cons p ps ih =>
    rw [List.cons_append,
      pickGo_cons_none p (ps ++ r :: rest) s m (hpre p (List.mem_cons_self p ps))]
    rw [ih (s || (_extract_metric_value p).2.1) (m || (_extract_metric_value p).2.2)
      (fun p' hp' => hpre p' (List.mem_cons_of_mem p hp'))]
    simp [List.any_cons, Bool.or_assoc]

/-- C4 counterexample: for the candidate group `[5, a-dict]`, the first
candidate yields the value 5 and `_pick_metric` returns with
`malformed_seen = false`, although the OR-reduction of the malformed flags
over all candidates in the group is `true` (the dict candidate is
malformed); the flags are thus not OR-reduced over all candidates. -/
theorem C4_counterexample :
    _pick_metric [some (JVal.jnum 5), some (JVal.jobj [])] = (some 5, false, false) ∧
    ([some (JVal.jnum 5), some (JVal.jobj [])].any
      (fun c => (_extract_metric_value c).2.2)) = true := by
  decide

/-- C4 (amended): `_pick_metric` returns the value of the first candidate
yielding a non-absent reading, with `sentinel_seen` and `malformed_seen`
OR-reduced over the candidates up to and including that first winner; only
when no candidate yields a value are the flags OR-reduced over all
candidates in the group. -/
theorem C4_pick_metric_flags :
    (∀ l : List (Option JVal),
      (∀ r ∈ l, (_extract_metric_value r).1 = Option.none) →
      _pick_metric l = (Option.none,
        l.any (fun r => (_extract_metric_value r).2.1),
        l.any (fun r => (_extract_metric_value r).2.2))) ∧
    (∀ (pre : List (Option JVal)) (r : Option JVal) (rest : List (Option JVal)) (x : ℚ),
      (∀ p ∈ pre, (_extract_metric_value p).1 = Option.none) →
      (_extract_metric_value r).1 = some x →
      _pick_metric (pre ++ r :: rest) = (some x,
        (pre ++ [r]).any (fun c => (_extract_metric_value c).2.1),
        (pre ++ [r]).any (fun c => (_extract_metric_value c).2.2))) := by
  constructor
  · intro l h
    unfold _pick_metric
    rw [pickGo_all_absent l false false h]
    simp
  · intro pre r rest x hpre hr
    unfold _pick_metric
    rw [pickGo_winner pre r rest false false x hpre hr]
    simp

/-- C4 witness: a null first candidate followed by a valid reading. -/
theorem C4_witness :
    _pick_metric [some JVal.jnull, some (JVal.jnum 7)] = (some 7, false, false) := by
  have h := C4_pick_metric_flags.2 [some JVal.jnull] (some (JVal.jnum 7)) [] 7
    (by decide) (by decide)
  exact h.trans (by decide)

/-- C10 witness: the string `"-32768"`. -/
theorem C10_witness :
    _extract_metric_value (some (JVal.jstr "-32768")) = (Option.none, true, false) ∧
    _extract_metric_value (some (JVal.jstr "-32768")) =
      _extract_metric_value (some (JVal.jnum (tokenToRat ['-', '3', '2', '7', '6', '8']))) :=
  C10_string_sentinel "-32768" ['-', '3', '2', '7', '6', '8'] (by decide) (by decide)

theorem drainLatest_eq_getLast {α : Type} (e : α) (rest : List α) :
    some (drainLatest e rest) = (e :: rest).getLast? := by
  induction rest generalizing e with
  | nil => rfl
  | cons x xs ih =>
    rw [drainLatest, ih x, List.getLast?_cons_cons]

/-- C8: pushing five events through the `_on_response` queue logic starting
from an empty queue leaves exactly the four most recent events in arrival
order (the oldest is evicted without blocking the producer), and
`get_latest_model_event` on a non-empty queue returns exactly the freshest
queued event and leaves the queue empty. -/
theorem C8_event_coalescer {α : Type} (e1 e2 e3 e4 e5 : α) :
    List.foldl onResponsePush [] [e1, e2, e3, e4, e5] = [e2, e3, e4, e5] ∧
    ∀ (e : α) (rest : List α),
      get_latest_model_event (e :: rest) = ((e :: rest).getLast?, []) := by
  constructor
  · rfl
  · intro e rest
    rw [get_latest_model_event, drainLatest_eq_getLast]

/-- C2: `restart_threshold` starts at 5; a startup-failure retry doubles it
with a cap of 60; a triggered restart tears down the session and doubles it
with a cap of 60; an evaluation whose state is `ok` or `no_signal` resets it
to 5; and five consecutive `source_unavailable` evaluations from a live
session at threshold 5 null the session handle and leave the threshold at
10. -/
theorem C2_restart_threshold :
    initController.restart_threshold = 5 ∧
    (∀ (s : ControllerState) (st : SrcState), s.hasScraper = false →
      (controllerStep s false st).restart_threshold = min (s.restart_threshold * 2) 60 ∧
      (controllerStep s false st).hasScraper = false) ∧
    (∀ (s : ControllerState) (startupOk : Bool) (st : SrcState),
      (s.hasScraper = true ∨ startupOk = true) →
      isRestartState st = true →
      s.restart_threshold ≤ s.empty_streak + 1 →
      controllerStep s startupOk st =
        { hasScraper := false, empty_streak := s.empty_streak + 1,
          restart_threshold := min (s.restart_threshold * 2) 60 }) ∧
    (∀ (s : ControllerState) (startupOk : Bool) (st : SrcState),
      (s.hasScraper = true ∨ startupOk = true) →
      (st = SrcState.ok ∨ st = SrcState.no_signal) →
      (controllerStep s startupOk st).restart_threshold = 5 ∧
      (controllerStep s startupOk st).empty_streak = 0) ∧
    controllerStep (controllerStep (controllerStep (controllerStep (controllerStep
      { hasScraper := true, empty_streak := 0, restart_threshold := 5 }
      true SrcState.source_unavailable) true SrcState.source_unavailable)
      true SrcState.source_unavailable) true SrcState.source_unavailable)
      true SrcState.source_unavailable =
      { hasScraper := false, empty_streak := 5, restart_threshold := 10 } := by
  refine ⟨rfl, ?_, ?_, ?_, by decide⟩
  · intro s st h
    rw [controllerStep, if_pos ⟨h, rfl⟩]
    exact ⟨rfl, rfl⟩
  · intro s startupOk st h hrs hle
    have hguard : ¬(s.hasScraper = false ∧ startupOk = false) := by
      rcases h with h | h <;> simp [h]
    have hstreak : isStreakState st = true := by
      cases st <;> simp_all [isRestartState, isStreakState]
    rw [controllerStep, if_neg hguard, if_pos hstreak, if_pos ⟨hrs, hle⟩]
  · intro s startupOk st h hok
    have hguard : ¬(s.hasScraper = false ∧ startupOk = false) := by
      rcases h with h | h <;> simp [h]
    have hstreak : isStreakState st = false := by
      rcases hok with h' | h' <;> subst h' <;> rfl
    rw [controllerStep, if_neg hguard, hstreak]
    exact ⟨rfl, rfl⟩

/-- C2 witness: a startup failure at threshold 40 doubles to 60 (capped); a
restart trigger at threshold 5 and streak 4 tears down and doubles to 10; an
`ok` evaluation resets threshold 7 to 5. -/
theorem C2_witness :
    (controllerStep { hasScraper := false, empty_streak := 2, restart_threshold := 40 }
      false SrcState.ok).restart_threshold = min (40 * 2) 60 ∧
    controllerStep { hasScraper := true, empty_streak := 4, restart_threshold := 5 }
      true SrcState.source_unavailable =
      { hasScraper := false, empty_streak := 5, restart_threshold := min (5 * 2) 60 } ∧
    (controllerStep { hasScraper := true, empty_streak := 3, restart_threshold := 7 }
      true SrcState.ok).restart_threshold = 5 :=
  ⟨(C2_restart_threshold.2.1 _ SrcState.ok rfl).1,
   C2_restart_threshold.2.2.1 _ true SrcState.source_unavailable (Or.inl rfl) rfl
     (by norm_num),
   (C2_restart_threshold.2.2.2.1 _ true SrcState.ok (Or.inl rfl) (Or.inl rfl)).1⟩

theorem le_pyRound (q : ℚ) : ⌊q⌋ ≤ pyRound q := by
  unfold pyRound
  split_ifs <;> omega

theorem pyRound_le (q : ℚ) : pyRound q ≤ ⌊q⌋ + 1 := by
  unfold pyRound
  split_ifs <;> omega

theorem pyRound_mono {a b : ℚ} (h : a ≤ b) : pyRound a ≤ pyRound b := by
  rcases lt_or_eq_of_le (Int.floor_mono h) with hf | hf
  · have h1 := pyRound_le a
    have h2 := le_pyRound b
    omega
  · unfold pyRound
    rw [hf]
    split_ifs <;> first | omega | linarith

theorem pyRound_ratio_mono {v1 v2 W : ℚ} (h : v1 ≤ v2) (hW : 0 < W) :
    pyRound (v1 / W * 100) ≤ pyRound (v2 / W * 100) :=
  pyRound_mono (mul_le_mul_of_nonneg_right ((div_le_div_iff_of_pos_right hW).mpr h)
    (by norm_num))

theorem pyRound_intCast (z : ℤ) : pyRound (z : ℚ) = z := by
  norm_num [pyRound, Int.floor_intCast]

theorem pyRound_ofInt {q : ℚ} {z : ℤ} (h : q = (z : ℚ)) : pyRound q = z := by
  rw [h, pyRound_intCast]

theorem clamp_mono {v w lo hi : ℚ} (h : v ≤ w) : clamp v lo hi ≤ clamp w lo hi :=
  max_le_max le_rfl (min_le_min le_rfl h)

theorem snrPart_mono {x y : ℚ} (h : x ≤ y) : snrPart x ≤ snrPart y :=
  clamp_mono ((div_le_div_iff_of_pos_right (by norm_num)).mpr (by linarith))

theorem rsrqPart_mono {x y : ℚ} (h : x ≤ y) : rsrqPart x ≤ rsrqPart y :=
  clamp_mono ((div_le_div_iff_of_pos_right (by norm_num)).mpr (by linarith))

theorem rsrpPart_mono {x y : ℚ} (h : x ≤ y) : rsrpPart x ≤ rsrpPart y :=
  clamp_mono ((div_le_div_iff_of_pos_right (by norm_num)).mpr (by linarith))

theorem quality_mono_snr {x x' : ℚ} (o2 o3 : Option ℚ) (h : x ≤ x') {y y' : ℤ}
    (h1 : quality_score (some x) o2 o3 = some y)
    (h2 : quality_score (some x') o2 o3 = some y') : y ≤ y' := by
  have hs := snrPart_mono h
  cases o2 <;> cases o3 <;>
    simp only [quality_score, List.cons_append, List.nil_append, List.append_nil,
      List.map_cons, List.map_nil, List.sum_cons, List.sum_nil,
      Option.some.injEq] at h1 h2 <;>
    subst h1 <;> subst h2 <;>
    exact pyRound_ratio_mono (by linarith) (by norm_num)

theorem quality_mono_rsrq {x x' : ℚ} (o1 o3 : Option ℚ) (h : x ≤ x') {y y' : ℤ}
    (h1 : quality_score o1 (some x) o3 = some y)
    (h2 : quality_score o1 (some x') o3 = some y') : y ≤ y' := by
  have hs := rsrqPart_mono h
  cases o1 <;> cases o3 <;>
    simp only [quality_score, List.cons_append, List.nil_append, List.append_nil,
      List.map_cons, List.map_nil, List.sum_cons, List.sum_nil,
      Option.some.injEq] at h1 h2 <;>
    subst h1 <;> subst h2 <;>
    exact pyRound_ratio_mono (by linarith) (by norm_num)

theorem quality_mono_rsrp {x x' : ℚ} (o1 o2 : Option ℚ) (h : x ≤ x') {y y' : ℤ}
    (h1 : quality_score o1 o2 (some x) = some y)
    (h2 : quality_score o1 o2 (some x') = some y') : y ≤ y' := by
  have hs := rsrpPart_mono h
  cases o1 <;> cases o2 <;>
    simp only [quality_score, List.cons_append, List.nil_append, List.append_nil,
      List.map_cons, List.map_nil, List.sum_cons, List.sum_nil,
      Option.some.injEq] at h1 h2 <;>
    subst h1 <;> subst h2 <;>
    exact pyRound_ratio_mono (by linarith) (by norm_num)

/-- C7: `quality_score` is monotonically non-decreasing in each of its
arguments SNR, RSRQ and RSRP individually: increasing one present component
while holding the other two (present or absent) fixed does not decrease the
resulting score. -/
theorem C7_quality_score_monotone :
    (∀ (x x' : ℚ) (o2 o3 : Option ℚ) (y y' : ℤ), x ≤ x' →
      quality_score (some x) o2 o3 = some y →
      quality_score (some x') o2 o3 = some y' → y ≤ y') ∧
    (∀ (x x' : ℚ) (o1 o3 : Option ℚ) (y y' : ℤ), x ≤ x' →
      quality_score o1 (some x) o3 = some y →
      quality_score o1 (some x') o3 = some y' → y ≤ y') ∧
    (∀ (x x' : ℚ) (o1 o2 : Option ℚ) (y y' : ℤ), x ≤ x' →
      quality_score o1 o2 (some x) = some y →
      quality_score o1 o2 (some x') = some y' → y ≤ y') :=
  ⟨fun _ _ o2 o3 _ _ h h1 h2 => quality_mono_snr o2 o3 h h1 h2,
   fun _ _ o1 o3 _ _ h h1 h2 => quality_mono_rsrq o1 o3 h h1 h2,
   fun _ _ o1 o2 _ _ h h1 h2 => quality_mono_rsrp o1 o2 h h1 h2⟩

/-- C7 witness: raising SNR from 0 to 1 (alone) raises the score from 20 to
24. -/
theorem C7_witness :
    quality_score (some 0) Option.none Option.none = some 20 ∧
    quality_score (some 1) Option.none Option.none = some 24 ∧
    (20 : ℤ) ≤ 24 := by
  have h1 : quality_score (some 0) Option.none Option.none = some 20 := by
    simp only [quality_score, List.cons_append, List.nil_append, List.append_nil,
      List.map_cons, List.map_nil, List.sum_cons, List.sum_nil, Option.some.injEq]
    exact pyRound_ofInt (by norm_num [snrPart, clamp, min_def, max_def])
  have h2 : quality_score (some 1) Option.none Option.none = some 24 := by
    simp only [quality_score, List.cons_append, List.nil_append, List.append_nil,
      List.map_cons, List.map_nil, List.sum_cons, List.sum_nil, Option.some.injEq]
    exact pyRound_ofInt (by norm_num [snrPart, clamp, min_def, max_def])
  exact ⟨h1, h2,
    C7_quality_score_monotone.1 0 1 Option.none Option.none 20 24 (by norm_num) h1 h2⟩

/-- C9: when the sample's band or service-type string is empty,
`update_gauges` leaves the corresponding informational registry field
unchanged (the previously published value persists), while all six numeric
metric gauges are overwritten on every publication, with NaN standing for an
absent metric. -/
theorem C9_update_gauges_frame (reg : Registry) (data : Diagnostics) (st : SrcState)
    (msg : String) (streak : ℕ) (hb now : ℚ) :
    (data.band = "" → (update_gauges reg data st msg streak hb now).1.band = reg.band) ∧
    (data.service_type = "" →
      (update_gauges reg data st msg streak hb now).1.service_type = reg.service_type) ∧
    (update_gauges reg data st msg streak hb now).1.lte_rsrp = _set data.lte_rsrp ∧
    (update_gauges reg data st msg streak hb now).1.lte_rsrq = _set data.lte_rsrq ∧
    (update_gauges reg data st msg streak hb now).1.lte_snr = _set data.lte_snr ∧
    (update_gauges reg data st msg streak hb now).1.nr_rsrp = _set data.nr_rsrp ∧
    (update_gauges reg data st msg streak hb now).1.nr_rsrq = _set data.nr_rsrq ∧
    (update_gauges reg data st msg streak hb now).1.nr_snr = _set data.nr_snr ∧
    _set Option.none = GaugeVal.nan := by
  refine ⟨?_, ?_, ?_, ?_, ?_, ?_, ?_, ?_, rfl⟩ <;>
    first
      | (intro h
         simp only [update_gauges, set_source_state]
         split_ifs <;> simp_all)
      | (simp only [update_gauges, set_source_state]
         split_ifs <;> rfl)

/-- C9 witness: publishing an all-absent sample over a registry holding band
`"LTE B66"` and service type `"5G"` keeps both informational fields and sets
the LTE RSRP gauge to NaN. -/
theorem C9_witness :
    (update_gauges
      ⟨GaugeVal.nan, GaugeVal.nan, GaugeVal.nan, GaugeVal.nan, GaugeVal.nan, GaugeVal.nan,
       GaugeVal.nan, GaugeVal.nan, "5G", "LTE B66", GaugeVal.nan, GaugeVal.nan, GaugeVal.nan,
       SrcState.ok, "", GaugeVal.nan⟩
      empty_diagnostics SrcState.ok "msg" 0 0 0).1.band = "LTE B66" ∧
    (update_gauges
      ⟨GaugeVal.nan, GaugeVal.nan, GaugeVal.nan, GaugeVal.nan, GaugeVal.nan, GaugeVal.nan,
       GaugeVal.nan, GaugeVal.nan, "5G", "LTE B66", GaugeVal.nan, GaugeVal.nan, GaugeVal.nan,
       SrcState.ok, "", GaugeVal.nan⟩
      empty_diagnostics SrcState.ok "msg" 0 0 0).1.service_type = "5G" ∧
    (update_gauges
      ⟨GaugeVal.nan, GaugeVal.nan, GaugeVal.nan, GaugeVal.nan, GaugeVal.nan, GaugeVal.nan,
       GaugeVal.nan, GaugeVal.nan, "5G", "LTE B66", GaugeVal.nan, GaugeVal.nan, GaugeVal.nan,
       SrcState.ok, "", GaugeVal.nan⟩
      empty_diagnostics SrcState.ok "msg" 0 0 0).1.lte_rsrp = GaugeVal.nan := by
  refine ⟨(C9_update_gauges_frame _ empty_diagnostics _ _ _ _ _).1 rfl,
    (C9_update_gauges_frame _ empty_diagnostics _ _ _ _ _).2.1 rfl,
    ((C9_update_gauges_frame _ empty_diagnostics _ _ _ _ _).2.2.1).trans rfl⟩

theorem quality_score_all_absent :
    quality_score Option.none Option.none Option.none = Option.none := rfl

theorem quality_score_neg5_snr :
    quality_score (some (-5)) Option.none Option.none = some 0 := by
  simp only [quality_score, List.cons_append, List.nil_append, List.append_nil,
    List.map_cons, List.map_nil, List.sum_cons, List.sum_nil, Option.some.injEq]
  exact pyRound_ofInt (by norm_num [snrPart, clamp, min_def, max_def])

/-- C3 counterexample: the all-absent sample has quality score `none` while
the sample with SNR `-5` has measured quality score `0`, yet `update_gauges`
publishes the same value 0 for both, in the broadcast payload and in the
registry gauge — the publication step does not preserve the distinction. -/
theorem C3_counterexample :
    quality_score (some (-5)) Option.none Option.none = some 0 ∧
    quality_score Option.none Option.none Option.none = Option.none ∧
    (update_gauges
      ⟨GaugeVal.nan, GaugeVal.nan, GaugeVal.nan, GaugeVal.nan, GaugeVal.nan, GaugeVal.nan,
       GaugeVal.nan, GaugeVal.nan, "", "", GaugeVal.nan, GaugeVal.nan, GaugeVal.nan,
       SrcState.ok, "", GaugeVal.nan⟩
      ⟨Option.none, Option.none, some (-5), Option.none, Option.none, Option.none, "", ""⟩
      SrcState.ok "msg" 0 0 0).2.lte_quality =
    (update_gauges
      ⟨GaugeVal.nan, GaugeVal.nan, GaugeVal.nan, GaugeVal.nan, GaugeVal.nan, GaugeVal.nan,
       GaugeVal.nan, GaugeVal.nan, "", "", GaugeVal.nan, GaugeVal.nan, GaugeVal.nan,
       SrcState.ok, "", GaugeVal.nan⟩
      empty_diagnostics SrcState.ok "msg" 0 0 0).2.lte_quality ∧
    (update_gauges
      ⟨GaugeVal.nan, GaugeVal.nan, GaugeVal.nan, GaugeVal.nan, GaugeVal.nan, GaugeVal.nan,
       GaugeVal.nan, GaugeVal.nan, "", "", GaugeVal.nan, GaugeVal.nan, GaugeVal.nan,
       SrcState.ok, "", GaugeVal.nan⟩
      ⟨Option.none, Option.none, some (-5), Option.none, Option.none, Option.none, "", ""⟩
      SrcState.ok "msg" 0 0 0).1.lte_quality =
    (update_gauges
      ⟨GaugeVal.nan, GaugeVal.nan, GaugeVal.nan, GaugeVal.nan, GaugeVal.nan, GaugeVal.nan,
       GaugeVal.nan, GaugeVal.nan, "", "", GaugeVal.nan, GaugeVal.nan, GaugeVal.nan,
       SrcState.ok, "", GaugeVal.nan⟩
      empty_diagnostics SrcState.ok "msg" 0 0 0).1.lte_quality := by
  refine ⟨quality_score_neg5_snr, rfl, ?_, ?_⟩ <;>
    simp [update_gauges, set_source_state, empty_diagnostics, quality_score_neg5_snr,
      quality_score_all_absent]

/-- C3 (amended): when all three quality components are absent the quality
score itself is absent (`none`, not zero), but `update_gauges` publishes an
absent score as the value 0 — in the registry quality gauge and in the
broadcast payload alike — so the published value coincides with that of a
measured score of zero; only the pre-publication `quality_score` result
distinguishes the two. -/
theorem C3_quality_absent_published_zero :
    quality_score Option.none Option.none Option.none = Option.none ∧
    (∀ (reg : Registry) (data : Diagnostics) (st : SrcState) (msg : String)
        (streak : ℕ) (hb now : ℚ),
      data.lte_snr = Option.none → data.lte_rsrq = Option.none →
      data.lte_rsrp = Option.none →
      (update_gauges reg data st msg streak hb now).2.lte_quality = 0 ∧
      (update_gauges reg data st msg streak hb now).1.lte_quality = GaugeVal.val 0) ∧
    (∀ (reg : Registry) (data : Diagnostics) (st : SrcState) (msg : String)
        (streak : ℕ) (hb now : ℚ),
      data.nr_snr = Option.none → data.nr_rsrq = Option.none →
      data.nr_rsrp = Option.none →
      (update_gauges reg data st msg streak hb now).2.nr_quality = 0 ∧
      (update_gauges reg data st msg streak hb now).1.nr_quality = GaugeVal.val 0) := by
  refine ⟨rfl, ?_, ?_⟩ <;>
  · intro reg data st msg streak hb now h1 h2 h3
    constructor
    · simp [update_gauges, set_source_state, h1, h2, h3, quality_score_all_absent]
    · simp only [update_gauges, set_source_state, h1, h2, h3, quality_score_all_absent]
      split_ifs <;> simp

/-- C3 witness: publishing the all-absent sample yields quality 0 in the
payload and in the registry gauge. -/
theorem C3_witness :
    (update_gauges
      ⟨GaugeVal.nan, GaugeVal.nan, GaugeVal.nan, GaugeVal.nan, GaugeVal.nan, GaugeVal.nan,
       GaugeVal.nan, GaugeVal.nan, "", "", GaugeVal.nan, GaugeVal.nan, GaugeVal.nan,
       SrcState.ok, "", GaugeVal.nan⟩
      empty_diagnostics SrcState.ok "msg" 0 0 0).2.lte_quality = 0 ∧
    (update_gauges
      ⟨GaugeVal.nan, GaugeVal.nan, GaugeVal.nan, GaugeVal.nan, GaugeVal.nan, GaugeVal.nan,
       GaugeVal.nan, GaugeVal.nan, "", "", GaugeVal.nan, GaugeVal.nan, GaugeVal.nan,
       SrcState.ok, "", GaugeVal.nan⟩
      empty_diagnostics SrcState.ok "msg" 0 0 0).1.lte_quality = GaugeVal.val 0 :=
  C3_quality_absent_published_zero.2.1 _ empty_diagnostics SrcState.ok "msg" 0 0 0
    rfl rfl rfl

theorem extract_of_isNone {r : Option JVal} (h : r.isNone = true) :
    _extract_metric_value r = (Option.none, false, false) := by
  cases r with
  | none => rfl
  | some v => simp at h

theorem pick_metric_group (l : List (Option JVal))
    (h : ∀ r ∈ l, r.isNone = true ∨ isSentinelRaw r) :
    _pick_metric l =
      (Option.none, l.any (fun r => (_extract_metric_value r).2.1), false) := by
  have h1 : ∀ r ∈ l, (_extract_metric_value r).1 = Option.none ∧
      (_extract_metric_value r).2.2 = false := by
    intro r hr
    rcases h r hr with h' | h'
    · rw [extract_of_isNone h']
      exact ⟨rfl, rfl⟩
    · rw [h']
      exact ⟨rfl, rfl⟩
  have hmalf : l.any (fun r => (_extract_metric_value r).2.2) = false := by
    rw [List.any_eq_false]
    intro r hr
    simp [(h1 r hr).2]
  unfold _pick_metric
  rw [pickGo_all_absent l false false (fun r hr => (h1 r hr).1), hmalf]
  simp

theorem any_sentinel_of_mem {l : List (Option JVal)}
    (h : ∃ r ∈ l, isSentinelRaw r) :
    l.any (fun r => (_extract_metric_value r).2.1) = true := by
  rcases h with ⟨r, hr, hs⟩
  rw [List.any_eq_true]
  refine ⟨r, hr, ?_⟩
  rw [hs]

/-- C1 counterexample: the payload with a `wwan` mapping carrying only empty
band and service-type strings lies in the claimed class (its top level is a
mapping with a `wwan` mapping, every candidate metric field that is present
holds a sentinel — vacuously, as none is present — and its band and
service-type strings are empty), yet `parse_model_payload` classifies it as
`source_unavailable`, not `no_signal`. -/
theorem C1_counterexample :
    (∀ r ∈ candidateRaws [("curBand", JVal.jstr ""), ("currentPSserviceType", JVal.jstr "")],
      r.isNone = true) ∧
    bandOf [("wwan", JVal.jobj [("curBand", JVal.jstr ""), ("currentPSserviceType", JVal.jstr "")])]
      [("curBand", JVal.jstr ""), ("currentPSserviceType", JVal.jstr "")] = "" ∧
    serviceTypeOf [("curBand", JVal.jstr ""), ("currentPSserviceType", JVal.jstr "")] = "" ∧
    parse_model_payload
      (JVal.jobj [("wwan",
        JVal.jobj [("curBand", JVal.jstr ""), ("currentPSserviceType", JVal.jstr "")])]) =
      (empty_diagnostics, SrcState.source_unavailable,
        "model payload missing diagnostics sections") := by
  refine ⟨by decide, by decide, by decide, by decide⟩

/-- C1 (amended): for every JSON payload whose top level is a mapping with a
`wwan` mapping, in which every candidate metric field that is present holds a
vendor sentinel value and at least one candidate metric field is present
(holding a sentinel), and whose band and service-type strings are empty,
`parse_model_payload` returns a sample with all six metrics absent and state
`no_signal` — sentinel-seen-without-malformed outranks `source_unavailable`. -/
theorem C1_sentinel_no_signal (mf wf : JObj)
    (hw : jget mf "wwan" = some (JVal.jobj wf))
    (hall : ∀ r ∈ candidateRaws wf, r.isNone = true ∨ isSentinelRaw r)
    (hex : ∃ r ∈ candidateRaws wf, isSentinelRaw r)
    (hband : bandOf mf wf = "")
    (hsvc : serviceTypeOf wf = "") :
    parse_model_payload (JVal.jobj mf) =
      (empty_diagnostics, SrcState.no_signal, "model stream reports no signal") := by
  have m1 : ∀ r ∈ lteRsrpCands wf, r ∈ candidateRaws wf := by
    intro r hr; simp [candidateRaws, List.mem_append, hr]
  have m2 : ∀ r ∈ lteRsrqCands wf, r ∈ candidateRaws wf := by
    intro r hr; simp [candidateRaws, List.mem_append, hr]
  have m3 : ∀ r ∈ lteSnrCands wf, r ∈ candidateRaws wf := by
    intro r hr; simp [candidateRaws, List.mem_append, hr]
  have m4 : ∀ r ∈ nrRsrpCands wf, r ∈ candidateRaws wf := by
    intro r hr; simp [candidateRaws, List.mem_append, hr]
  have m5 : ∀ r ∈ nrRsrqCands wf, r ∈ candidateRaws wf := by
    intro r hr; simp [candidateRaws, List.mem_append, hr]
  have m6 : ∀ r ∈ nrSnrCands wf, r ∈ candidateRaws wf := by
    intro r hr; simp [candidateRaws, List.mem_append, hr]
  have hp1 := pick_metric_group (lteRsrpCands wf) (fun r hr => hall r (m1 r hr))
  have hp2 := pick_metric_group (lteRsrqCands wf) (fun r hr => hall r (m2 r hr))
  have hp3 := pick_metric_group (lteSnrCands wf) (fun r hr => hall r (m3 r hr))
  have hp4 := pick_metric_group (nrRsrpCands wf) (fun r hr => hall r (m4 r hr))
  have hp5 := pick_metric_group (nrRsrqCands wf) (fun r hr => hall r (m5 r hr))
  have hp6 := pick_metric_group (nrSnrCands wf) (fun r hr => hall r (m6 r hr))
  have hsent := any_sentinel_of_mem hex
  simp only [candidateRaws, List.any_append] at hsent
  simp only [parse_model_payload, hw]
  simp only [parseWwan, hp1, hp2, hp3, hp4, hp5, hp6, hband, hsvc]
  simp [parsedNumericCount, hsent, empty_diagnostics]

/-- C1 witness: the payload of the spec scenario,
a `wwan.signalStrength.rsrp` field holding the sentinel `-32768`. -/
theorem C1_witness :
    parse_model_payload
      (JVal.jobj [("wwan",
        JVal.jobj [("signalStrength", JVal.jobj [("rsrp", JVal.jnum (-32768))])])]) =
      (empty_diagnostics, SrcState.no_signal, "model stream reports no signal") :=
  C1_sentinel_no_signal
    [("wwan", JVal.jobj [("signalStrength", JVal.jobj [("rsrp", JVal.jnum (-32768))])])]
    [("signalStrength", JVal.jobj [("rsrp", JVal.jnum (-32768))])]
    rfl (by decide) (by decide) (by decide) (by decide)

end HotspotMetrics
